import Mathlib

/-!
Verification development for the streamkap-com/transform-kit-typescript
repository: a shallow embedding, in Lean 4, of the record-transformation
logic (OrderTransformer, the template transform classes built on
CommonTransform / KeyTransform) and of the `build-multiple.js` generator,
together with theorems settling the frozen claims about this code.

Conventions used throughout the embedding:
  * JavaScript dynamic values are modelled by the mutual inductive
    `JsValue` / `JsArr` / `JsObj` below (undefined, null, booleans,
    numbers, strings, arrays, objects).  Numbers are modelled by `Int`:
    all numeric code under verification manipulates integral timestamps
    and counts; `NaN` and fractional values are outside the model (the
    sources guard `isNaN` only to fall back to `Date.now()`).
  * Effects that read the clock or generate a UUID are passed in as
    explicit parameters (`nowIso`, `nowFmt`, `pid`, ...); the functions
    of the source are otherwise pure.
  * A thrown `TypeError` (property access on `undefined`) is modelled by
    `Option.none` where the source can actually throw.
-/

set_option linter.unusedVariables false

mutual

/-- JavaScript values, as a mutual inductive so that all recursions below
are plain structural recursions.  `undefv` is the JavaScript `undefined`;
an object field whose value is `undef` models a property that is present
but `undefined` (an absent property is simply not in the list). -/
inductive JsValue : Type where
  | undefv : JsValue
  | nullv : JsValue
  | bool : Bool → JsValue
  | num : Int → JsValue
  | str : String → JsValue
  | arr : JsArr → JsValue
  | obj : JsObj → JsValue

/-- Arrays of JavaScript values. -/
inductive JsArr : Type where
  | nil : JsArr
  | cons : JsValue → JsArr → JsArr

/-- Objects: ordered association lists of string keys and values. -/
inductive JsObj : Type where
  | nil : JsObj
  | cons : String → JsValue → JsObj → JsObj

end

/-- Field lookup: first occurrence of the key (JavaScript objects never
hold a key twice, so this is ordinary property lookup). -/
def JsObj.lookup : JsObj → String → Option JsValue
  | .nil, _ => none
  | .cons k v t, key => if k = key then some v else t.lookup key

/-- The JavaScript `key in record` test: property presence, including
properties whose value is `undefined`. -/
def JsObj.hasKey (o : JsObj) (key : String) : Bool :=
  (o.lookup key).isSome

/-- Number of fields of the object (`Object.keys(o).length`). -/
def JsObj.length : JsObj → Nat
  | .nil => 0
  | .cons _ _ t => t.length + 1

/-- Length of an array. -/
def JsArr.length : JsArr → Nat
  | .nil => 0
  | .cons _ t => t.length + 1

/-- Property access `v.key` on an arbitrary value: `undefined` for
primitives and for absent keys.  (Access on `null`/`undefined` throws in
JavaScript; call sites below only use `getProp` where the source has
already established the base is not nullish, or uses `?.`.) -/
def getProp (v : JsValue) (key : String) : JsValue :=
  match v with
  | .obj o => (o.lookup key).getD .undefv
  | _ => .undefv

/-- JavaScript truthiness.  (`0` is falsy; the model has no `NaN`.) -/
def truthy : JsValue → Bool
  | .undefv => false
  | .nullv => false
  | .bool b => b
  | .num n => n != 0
  | .str s => s != ""
  | .arr _ => true
  | .obj _ => true

/-- The `a || b` operator: `a` when truthy, else `b`. -/
def jsOr (a b : JsValue) : JsValue :=
  if truthy a then a else b

/-- The `typeof` operator (note `typeof null = "object"`). -/
def typeofJs : JsValue → String
  | .undefv => "undefined"
  | .nullv => "object"
  | .bool _ => "boolean"
  | .num _ => "number"
  | .str _ => "string"
  | .arr _ => "object"
  | .obj _ => "object"

/-- Model of the test `typeof v` is `string` or `number`. -/
def isStringOrNumber : JsValue → Bool
  | .str _ => true
  | .num _ => true
  | _ => false

mutual

/-- Model of `String(v)` for the values the filtering code stringifies.  Arrays
join their elements with commas, nullish elements becoming empty. -/
def toStringJs : JsValue → String
  | .undefv => "undefined"
  | .nullv => "null"
  | .bool b => if b then "true" else "false"
  | .num n => toString n
  | .str s => s
  | .obj _ => "[object Object]"
  | .arr a => arrToString a

/-- Model of `Array.prototype.toString`: comma-joined elements. -/
def arrToString : JsArr → String
  | .nil => ""
  | .cons v .nil => arrElemToString v
  | .cons v t => arrElemToString v ++ "," ++ arrToString t

/-- An array element inside `toString`: `null`/`undefined` print empty. -/
def arrElemToString : JsValue → String
  | .undefv => ""
  | .nullv => ""
  | .bool b => if b then "true" else "false"
  | .num n => toString n
  | .str s => s
  | .obj _ => "[object Object]"
  | .arr a => arrToString a

end

/-- Does `s` start with the pattern `pat`? (on character lists). -/
def startsWithL : List Char → List Char → Bool
  | _, [] => true
  | [], _ :: _ => false
  | c :: cs, p :: ps => c = p && startsWithL cs ps

/-- The JavaScript `s.includes(pat)` substring test. -/
def containsL (s pat : List Char) : Bool :=
  startsWithL s pat ||
    match s with
    | [] => false
    | _ :: cs => containsL cs pat

/-- Model of `s.includes(pat)` on strings. -/
def strContains (s pat : String) : Bool :=
  containsL s.data pat.data

/-- Model of `s.toLowerCase()` (ASCII, which covers every pattern the code
compares against). -/
def toLowerJs (s : String) : String :=
  ⟨s.data.map Char.toLower⟩

/-! ## OrderTransformer (src/OrderTransformer.ts) and its data model

`Customer`, `OrderType1`, `OrderType2` and `MergedOrder` are TypeScript
interfaces.  At run time the transformer receives dynamic records, and it
defends against an absent or empty nested customer name with
the lodash path test `_.has(cleanedOrder, customer.name)` guarded by
`_.isEmpty`, so `customer`
and `name` are modelled as `Option`s.  Shape A (`OrderType1`) carries
`_id` and a top-level `organization_id`; shape B (`OrderType2`) carries
`order_id` and no top-level `organization_id`.  Both shapes are received
through one dynamic parameter, modelled by `InputOrder` below, where an
absent property is `none` (exactly how  `_.omitBy(inputOrder,
_.isUndefined)` and property reads see it). -/

/-- The `Customer` interface (fields used by the code: `_id`, `name`,
`organization_id`, `version`). -/
structure Customer where
  _id : String
  name : Option String
  organization_id : Option String
  version : String
deriving DecidableEq

/-- The dynamic input of `OrderTransformer.transform`: the union of the
`OrderType1` and `OrderType2` interfaces, an absent field being `none`. -/
structure InputOrder where
  _id : Option String
  order_id : Option String
  order_type : String
  order_number : Int
  location_id : String
  channel : String
  customer : Option Customer
  organization_id : Option String
deriving DecidableEq

/-- The `MergedOrder` interface (src/MergedOrder.ts). -/
structure MergedOrder where
  version : String
  _id : Option String
  order_number : Int
  location_id : String
  order_type : String
  channel : String
  customer : Option Customer
  organization_id : Option String
  processed_at : String
  processed_time : String
  processing_id : String
  has_valid_customer : Bool
  field_count : Nat
deriving DecidableEq

/-- Model of the lodash check `_.has(cleanedOrder, customer.name)` and
not `_.isEmpty(cleanedOrder.customer.name)`:
true exactly when a nested customer is present, has a `name` property,
and that name is a non-empty string. -/
def hasValidCustomer (ord : InputOrder) : Bool :=
  match ord.customer with
  | none => false
  | some c =>
    match c.name with
    | none => false
    | some s => !(s == "")

/-- Model of `_.keys(_.omitBy(inputOrder, _.isUndefined)).length`: the four
always-present fields plus each present optional field. -/
def fieldCount (ord : InputOrder) : Nat :=
  4 + (if ord._id.isSome then 1 else 0) + (if ord.order_id.isSome then 1 else 0)
    + (if ord.customer.isSome then 1 else 0)
    + (if ord.organization_id.isSome then 1 else 0)

namespace OrderTransformer

/-- Model of `OrderTransformer.transformOrderType1`: canonical id from `_id`,
organization id from the top level.  `now.toISOString()`,
`now.format(...)` and `uuidv4()` are the parameters `nowIso`, `nowFmt`
and `pid`. -/
def transformOrderType1 (ord : InputOrder) (nowIso nowFmt pid : String) :
    MergedOrder where
  version := "0.1.4"
  _id := ord._id
  order_number := ord.order_number
  location_id := ord.location_id
  order_type := ord.order_type
  channel := ord.channel
  customer := ord.customer
  organization_id := ord.organization_id
  processed_at := nowIso
  processed_time := nowFmt
  processing_id := pid
  has_valid_customer := hasValidCustomer ord
  field_count := fieldCount ord

/-- Model of `OrderTransformer.transformOrderType2`: canonical id from `order_id`,
organization id from `inputOrder.customer.organization_id`.  When
`customer` is absent that property access throws a `TypeError`, modelled
by `none`. -/
def transformOrderType2 (ord : InputOrder) (nowIso nowFmt pid : String) :
    Option MergedOrder :=
  match ord.customer with
  | none => none
  | some c => some
    { version := "0.1.4"
      _id := ord.order_id
      order_number := ord.order_number
      location_id := ord.location_id
      order_type := ord.order_type
      channel := ord.channel
      customer := ord.customer
      organization_id := c.organization_id
      processed_at := nowIso
      processed_time := nowFmt
      processing_id := pid
      has_valid_customer := hasValidCustomer ord
      field_count := fieldCount ord }

/-- Model of `OrderTransformer.transform`: dispatch on whether `order_type` equals `OrderType1`. -/
def transform (ord : InputOrder) (nowIso nowFmt pid : String) :
    Option MergedOrder :=
  if ord.order_type = "OrderType1" then
    some (transformOrderType1 ord nowIso nowFmt pid)
  else
    transformOrderType2 ord nowIso nowFmt pid

end OrderTransformer

/-- Erase the per-invocation metadata of a merged order: the generated
uuid (`processing_id`) and the two clock readings (`processed_at`,
`processed_time`). -/
def eraseMeta (m : MergedOrder) : MergedOrder :=
  { m with processed_at := "", processed_time := "", processing_id := "" }

/-- The nested customer name of an input, when present. -/
def nestedCustomerName (ord : InputOrder) : Option String :=
  match ord.customer with
  | none => none
  | some c => c.name

/-! ## KeyTransform.validateKey / KeyTransform.sanitizeKey
(src/templates/keyTransform.ts; the enhanced copy of `keyTransform.ts`
writes the same character class with `\uXXXX` escapes and splits the
replacement in two passes, with identical effect). -/

/-- The problematic-character class of `/[<>:"\/\\|?*]/`. -/
def problematicChar (c : Char) : Bool :=
  c = '<' || c = '>' || c = ':' || c = '"' || c = '/' || c = '\\' ||
    c = '|' || c = '?' || c = '*'

/-- The control-character class of `/[\x00-\x1f]/`. -/
def controlChar (c : Char) : Bool :=
  c.toNat ≤ 31

/-- Model of `KeyTransform.validateKey`: non-empty, at most 255 long, no
problematic characters, no control characters. -/
def validateKey (key : String) : Bool :=
  if key.data.isEmpty then false
  else if key.data.length > 255 then false
  else if key.data.any problematicChar then false
  else if key.data.any controlChar then false
  else true

/-- Model of `KeyTransform.sanitizeKey`: empty keys become `empty-key`,
problematic and control characters become `'_'`, and keys longer than 255
are truncated to 252 characters plus three dots. -/
def sanitizeKey (key : String) : String :=
  if key.data.isEmpty then "empty-key"
  else
    let s := key.data.map (fun c =>
      if problematicChar c || controlChar c then '_' else c)
    if s.length > 255 then ⟨s.take 252 ++ "...".data⟩ else ⟨s⟩

/-! ## Timestamp normalization

`CommonTransform.normalizeTimestamp` (src/templates/commonTransform.ts,
enhanced copy) classifies the magnitude; `KeyTransform.normalizeTimestamp`
(src/templates/keyTransform.ts, enhanced copy) uses a single `1e12`
cut-off instead.  The `typeof`/`isNaN` guards are unrepresentable in the
`Int` model; the `timestamp <= 0` fallback takes the explicit `now`. -/

namespace CommonTransform

/-- Model of `CommonTransform.normalizeTimestamp`: seconds, milliseconds,
microseconds or nanoseconds by magnitude, rescaled to milliseconds. -/
def normalizeTimestamp (t : Int) (now : Int) : Int :=
  if t ≤ 0 then now
  else if t < 10 ^ 10 then t * 1000
  else if t < 10 ^ 13 then t
  else if t < 10 ^ 16 then t / 1000
  else t / 1000000

end CommonTransform

namespace KeyTransform

/-- Model of `KeyTransform.normalizeTimestamp`: anything below `1e12` is treated
as seconds and multiplied by 1000; anything else is returned unchanged. -/
def normalizeTimestamp (t : Int) : Int :=
  if t < 1000000000000 then t * 1000 else t

end KeyTransform

/-! ## CommonTransform record validation and map_filter filtering
(enhanced copy of src/templates/commonTransform.ts). -/

namespace CommonTransform

/-- One disjunct of `validateRecord`: the field is truthy and a string or
a number. -/
def idOk (v : JsValue) : Bool :=
  truthy v && isStringOrNumber v

/-- Model of `Object.keys(record).length` for the values `typeof` calls objects. -/
def keysLength : JsValue → Nat
  | .obj o => o.length
  | .arr a => a.length
  | _ => 0

/-- Model of `CommonTransform.validateRecord` (enhanced copy): a truthy object
with a truthy string-or-number `id`, `_id` or `order_id` and at least one
key. -/
def validateRecord (record : JsValue) : Bool :=
  match record with
  | .obj _ =>
    (idOk (getProp record "id") || idOk (getProp record "_id") ||
      idOk (getProp record "order_id")) && keysLength record > 0
  | .arr _ =>
    (idOk (getProp record "id") || idOk (getProp record "_id") ||
      idOk (getProp record "order_id")) && keysLength record > 0
  | _ => false

/-- Model of `record.id || record._id || record.order_id`. -/
def idField (record : JsValue) : JsValue :=
  jsOr (getProp record "id") (jsOr (getProp record "_id") (getProp record "order_id"))

/-- Model of `CommonTransform.shouldKeepRecord` (enhanced copy): reject invalid
records, and records whose lower-cased identifier contains `test`,
`mock` or `dummy`. -/
def shouldKeepRecord (record : JsValue) : Bool :=
  if !validateRecord record then false
  else
    let idf := idField record
    if truthy idf then
      let idStr := toLowerJs (toStringJs idf)
      if strContains idStr "test" || strContains idStr "mock" ||
          strContains idStr "dummy" then false
      else true
    else true

end CommonTransform

/-! ## CommonTransform.removeUndefinedValues and flattenRecord
(enhanced copy).  The cycle detection of the source cannot fire on
inductive values and is not represented. -/

mutual

/-- Model of `CommonTransform.removeUndefinedValues` on a value. -/
def remUndefVal : JsValue → JsValue
  | .obj o => .obj (remUndefObj o)
  | .arr a => .arr (remUndefArr a)
  | v => v

/-- Objects: drop properties whose value is `undefined`, recurse on the
rest. -/
def remUndefObj : JsObj → JsObj
  | .nil => .nil
  | .cons k v t =>
    match v with
    | .undefv => remUndefObj t
    | _ => .cons k (remUndefVal v) (remUndefObj t)

/-- Arrays: `map` then `filter(item => item !== undefined)`. -/
def remUndefArr : JsArr → JsArr
  | .nil => .nil
  | .cons v t =>
    match v with
    | .undefv => remUndefArr t
    | _ => .cons (remUndefVal v) (remUndefArr t)

end

/-- JavaScript property assignment `o[k] = v`: overwrite in place when
the key exists, append otherwise. -/
def setField : JsObj → String → JsValue → JsObj
  | .nil, k, v => .cons k v .nil
  | .cons k' v' t, k, v =>
    if k' = k then .cons k' v t else .cons k' v' (setField t k v)

/-- Successive property assignments, used for object-literal spreads
(`{...a, ...b}` assigns the fields of `b` over `a` in order). -/
def objAssign : JsObj → JsObj → JsObj
  | a, .nil => a
  | a, .cons k v t => objAssign (setField a k v) t

/-- Model of `delete o.k`. -/
def removeKey : JsObj → String → JsObj
  | .nil, _ => .nil
  | .cons k' v t, k => if k' = k then removeKey t k else .cons k' v (removeKey t k)

/-- Model of `{...record}`: the own fields of an object (the claims under
verification only spread objects). -/
def spreadFields : JsValue → JsObj
  | .obj o => o
  | _ => .nil

/-- The `metadata_`-prefixed copies of the fields of the nested
`metadata` object (`Object.keys(record.metadata).forEach(...)`),
assigned in order. -/
def prefixMetadata (acc : JsObj) : JsObj → JsObj
  | .nil => acc
  | .cons k v t => prefixMetadata (setField acc ("metadata_" ++ k) v) t

namespace CommonTransform

/-- Model of `CommonTransform.flattenRecord` (enhanced copy): copy the record,
flatten a truthy `user` object into `user_id`/`user_name`/`user_email`,
flatten a truthy `metadata` object into `metadata_`-prefixed fields,
stamp `flattened_at`/`original_structure_preserved`/`flatten_version`,
and strip `undefined` values.  (`validateDataTypes` only logs and does
not change the result; `nowIso` is `new Date().toISOString()`.) -/
def flattenRecord (record : JsValue) (nowIso : String) : JsValue :=
  let fs0 := spreadFields record
  let user := getProp record "user"
  let fs1 :=
    if truthy user then
      removeKey
        (setField
          (setField (setField fs0 "user_id" (getProp user "id"))
            "user_name" (getProp user "name"))
          "user_email" (getProp user "email"))
        "user"
    else fs0
  let md := getProp record "metadata"
  let fs2 :=
    if truthy md then removeKey (prefixMetadata fs1 (spreadFields md)) "metadata"
    else fs1
  let fs3 :=
    setField
      (setField (setField fs2 "flattened_at" (.str nowIso))
        "original_structure_preserved" (.bool false))
      "flatten_version" (.str "1.0.0")
  .obj (remUndefObj fs3)

end CommonTransform

/-! ## Example-based generated transforms (build-multiple.js)

When no `src/templates/index.ts` is present, `generateValueTransform`
emits `_streamkap_transform` functions that call `OrderTransformer`
directly; these are the functions that the repository test file
`GeneratedTransforms.test.ts` exercises.  A `null` argument or result is
`none`. -/

/-- The guard `!valueObject.customer || !valueObject.customer.name` of
the example-based map_filter function, negated: the nested customer name
is present and truthy (a non-empty string). -/
def customerNameTruthy (ord : InputOrder) : Bool :=
  match ord.customer with
  | none => false
  | some c =>
    match c.name with
    | none => false
    | some s => !(s == "")

/-- The example-based generated map_filter `_streamkap_transform`:
drop records without a truthy nested customer name, drop records whose
truthy `_id` contains `test` (case-sensitively), then apply
`OrderTransformer.transform`. -/
def mapFilterExample (v : Option InputOrder) (nowIso nowFmt pid : String) :
    Option MergedOrder :=
  match v with
  | none => none
  | some ord =>
    if !customerNameTruthy ord then none
    else if (match ord._id with
             | some s => !(s == "") && strContains s "test"
             | none => false) then none
    else OrderTransformer.transform ord nowIso nowFmt pid

/-- The result of the example-based un_nesting transform after the
nested `customer` has been deleted and its fields hoisted: every
`MergedOrder` field except `customer`, plus the four `customer_*` copies
and the flattening stamps. -/
structure FlatOrder where
  version : String
  _id : Option String
  order_number : Int
  location_id : String
  order_type : String
  channel : String
  organization_id : Option String
  processed_at : String
  processed_time : String
  processing_id : String
  has_valid_customer : Bool
  field_count : Nat
  customer_id : String
  customer_name : Option String
  customer_organization_id : Option String
  customer_version : String
  flattened_at : String
  original_structure_preserved : Bool
deriving DecidableEq

/-- The two possible shapes returned by the example-based un_nesting
transform: `flat` when the transformed record had a truthy `customer`
(which is then deleted), `plain` when it had none; the `flattened_at`
and `original_structure_preserved` stamps are set in both cases. -/
inductive UnNestResult where
  | flat : FlatOrder → UnNestResult
  | plain : MergedOrder → String → Bool → UnNestResult
deriving DecidableEq

/-- The example-based generated un_nesting `_streamkap_transform`:
`null` in, `null` out; otherwise transform with `OrderTransformer`, then
hoist `customer._id`/`name`/`organization_id`/`version` into
`customer_id`/`customer_name`/`customer_organization_id`/
`customer_version`, delete `customer`, and stamp `flattened_at` and
`original_structure_preserved: false`. -/
def unNestingExample (v : Option InputOrder) (nowIso nowFmt pid flatAt : String) :
    Option UnNestResult :=
  match v with
  | none => none
  | some ord =>
    (OrderTransformer.transform ord nowIso nowFmt pid).map (fun m =>
      match m.customer with
      | some c => .flat
        { version := m.version
          _id := m._id
          order_number := m.order_number
          location_id := m.location_id
          order_type := m.order_type
          channel := m.channel
          organization_id := m.organization_id
          processed_at := m.processed_at
          processed_time := m.processed_time
          processing_id := m.processing_id
          has_valid_customer := m.has_valid_customer
          field_count := m.field_count
          customer_id := c._id
          customer_name := c.name
          customer_organization_id := c.organization_id
          customer_version := c.version
          flattened_at := flatAt
          original_structure_preserved := false }
      | none => .plain m flatAt false)

/-! ## The catch branches of the template transform classes

Each template class wraps its whole `transform` body in `try/catch`, so
no exception propagates; what the caller sees on an internal exception is
the value built by the `catch` branch.  Those branches are embedded here
verbatim: the thrown error is modelled by its message and optional stack,
and `new Date().toISOString()` by the `nowIso` parameter. -/

/-- Model of `CommonTransform.createErrorContext(error, operation, record)`. -/
def createErrorContext (errMsg : String) (errStack : Option JsValue)
    (operation : String) (record : JsValue) (nowIso : String) : JsObj :=
  .cons "error_message" (.str errMsg)
    (.cons "error_operation" (.str operation)
      (.cons "error_timestamp" (.str nowIso)
        (.cons "error_stack" (errStack.getD .undefv)
          (.cons "record_id"
            (jsOr (getProp record "id")
              (jsOr (getProp record "_id")
                (jsOr (getProp record "order_id") (.str "unknown"))))
            (.cons "record_type"
              (jsOr (getProp record "type") (.str (typeofJs record)))
              .nil)))))

/-- The catch branch of `ValueTransform.transform` (enhanced copy):
`{...valueObject, transform_error: true, ...errorContext}`. -/
def valueTransformOnError (valueObject : JsValue) (errMsg : String)
    (errStack : Option JsValue) (nowIso : String) : JsValue :=
  .obj (objAssign
    (objAssign (spreadFields valueObject)
      (.cons "transform_error" (.bool true) .nil))
    (createErrorContext errMsg errStack "valueTransform" valueObject nowIso))

/-- The catch branch of `ValueSchemaTransform.transform`:
`{_error: true, error_message, error_timestamp, original_value}`. -/
def valueSchemaTransformOnError (valueObject : JsValue) (errMsg : String)
    (nowIso : String) : JsValue :=
  .obj (.cons "_error" (.bool true)
    (.cons "error_message" (.str errMsg)
      (.cons "error_timestamp" (.str nowIso)
        (.cons "original_value" valueObject .nil))))

/-- The catch branch of `KeyTransform.transform`
(src/templates/keyTransform.ts): the plain string `` `error-${keyObject}` ``. -/
def keyTransformOnError (keyObject : JsValue) : JsValue :=
  .str ("error-" ++ toStringJs keyObject)

/-- Model of `CommonTransform.sanitizeTopicName`: non-strings fall back to
`'default-topic'`, other characters become `'-'`, a leading dot gains a
`topic` prefix, and names longer than 249 are cut to 246 plus three dots. -/
def sanitizeTopicName (topicName : String) : String :=
  if topicName == "" then "default-topic"
  else
    let s := topicName.data.map (fun c =>
      if c.isAlphanum || c = '.' || c = '_' || c = '-' then c else '-')
    let s := if s.head? = some '.' then "topic".data ++ s else s
    if s.length > 249 then ⟨s.take 246 ++ "...".data⟩ else ⟨s⟩

/-- The catch branch of `TopicTransform.transform`:
`this.commonTransform.sanitizeTopicName` applied to `transform-errors`. -/
def topicTransformOnError : JsValue :=
  .str (sanitizeTopicName "transform-errors")

/-- Notion, from claim C4, of a structured error object for a result and the
original input: an object that carries a string `error_message` and
embeds the original, either wholesale under `original_value` or by
spreading the own fields of the original (a field is preserved unless one of
the error-metadata keys overwrites it). -/
def errorMetaKeys : List String :=
  ["transform_error", "error_message", "error_operation", "error_timestamp",
   "error_stack", "record_id", "record_type"]

/-- Predicate of claim C4: the result is an object with an error message
that embeds the original input. -/
def IsStructuredErrorObject (result original : JsValue) : Prop :=
  ∃ rs : JsObj, result = .obj rs ∧
    (∃ m : String, rs.lookup "error_message" = some (.str m)) ∧
    (rs.lookup "original_value" = some original ∨
      (∃ os : JsObj, original = .obj os ∧
        ∀ k v, os.lookup k = some v → k ∉ errorMetaKeys →
          rs.lookup k = some v))

/-- Boolean shadow of the object-with-error-message part of
`IsStructuredErrorObject`, for concrete refutations. -/
def hasStructuredErrorShape : JsValue → Bool
  | .obj rs => rs.hasKey "error_message"
  | _ => false

/-! ## JSONRecordHelper.validateRecordStructure and the stringify/parse
round trip (src/JSONRecordHelper.ts). -/

/-- Model of `isNumOpt` spells the test that `typeof record.metadata.k` is `number`. -/
def isNumOpt : Option JsValue → Bool
  | some (.num _) => true
  | _ => false

/-- Is the optional field present with the value `undefined`? -/
def isUndefOpt : Option JsValue → Bool
  | some .undefv => true
  | _ => false

/-- Model of `JSONRecordHelper.validateRecordStructure`.  The result is `none`
when the code would throw (`record.metadata` is `null`: `typeof null`
is `object`, and `null.offset` then raises a `TypeError`); otherwise
`some` of the boolean the function returns. -/
def validateRecordStructure (record : JsValue) : Option Bool :=
  match record with
  | .obj fs =>
    let hasValue := fs.hasKey "value"
    match fs.lookup "metadata" with
    | some .nullv => none
    | some (.obj m) =>
      some (hasValue && isNumOpt (m.lookup "offset")
        && isNumOpt (m.lookup "partition") && isNumOpt (m.lookup "timestamp"))
    | _ => some (hasValue && false)
  | .arr _ => some false
  | _ => some false

mutual

/-- The composite `JSON.parse(JSON.stringify(v))` on a JSON-serialisable
value: object properties whose value is `undefined` are dropped,
`undefined` array elements become `null`, everything else survives
unchanged.  (A root-level `undefined` never reaches this function in the
theorems below: the validator rejects it.) -/
def jsonCloneVal : JsValue → JsValue
  | .obj o => .obj (jsonCloneObj o)
  | .arr a => .arr (jsonCloneArr a)
  | v => v

/-- Object fields under stringify/parse: `undefined`-valued properties
are omitted from the serialised text. -/
def jsonCloneObj : JsObj → JsObj
  | .nil => .nil
  | .cons k v t =>
    match v with
    | .undefv => jsonCloneObj t
    | _ => .cons k (jsonCloneVal v) (jsonCloneObj t)

/-- Array elements under stringify/parse: `undefined` serialises as
`null`. -/
def jsonCloneArr : JsArr → JsArr
  | .nil => .nil
  | .cons v t =>
    match v with
    | .undefv => .cons .nullv (jsonCloneArr t)
    | _ => .cons (jsonCloneVal v) (jsonCloneArr t)

end

/-! ## The build-multiple.js generator

The generator is modelled as a pure function from the command-line
arguments to the list of emitted per-transform files (path and text).
`mainCode` stands for the esbuild bundle text and `genTs` for
`new Date().toISOString()`; `tmpl` is `useTemplateStructure`
(whether `src/templates/index.ts` exists).  The code-template strings
below are the template literals of `build-multiple.js`, byte for byte.
(`generateOutputReadme` additionally writes `transforms/README.md`,
which is not a per-transform output file and is outside this model, and
the SQL emission branch is dead: every descriptor in the `transforms`
table has language `JAVASCRIPT`.) -/

def tmplValueMapFilterCode : String :=
  "// Main transform function for map_filter\n" ++
  "function _streamkap_transform(valueObject, keyObject, topic, timestamp) \x7b\n" ++
  "    // Map/Filter: Transform and optionally filter records using template structure\n" ++
  "    try \x7b\n" ++
  "        var ValueTransformClass = (typeof StreamkapTransforms !== \x27undefined\x27 && StreamkapTransforms.ValueTransform) || \n" ++
  "                                  (typeof valueTransform !== \x27undefined\x27 ? valueTransform : ValueTransform);\n" ++
  "        var transformer = typeof ValueTransformClass === \x27function\x27 ? new ValueTransformClass() : ValueTransformClass;\n" ++
  "        var transformedRecord = transformer.transform(valueObject, keyObject, topic, timestamp);\n" ++
  "        return transformedRecord;\n" ++
  "    \x7d catch (error) \x7b\n" ++
  "        console.error(\x27Transform failed:\x27, error);\n" ++
  "        return null; // Filter out on error for map_filter\n" ++
  "    \x7d\n" ++
  "\x7d"

def tmplValueFanOutCode : String :=
  "// Value transform for fan_out using template structure\n" ++
  "function _streamkap_transform(valueObject, keyObject, topic, timestamp) \x7b\n" ++
  "    // Fan Out: Transform the record that will be sent to multiple topics\n" ++
  "    try \x7b\n" ++
  "        var ValueTransformClass = (typeof StreamkapTransforms !== \x27undefined\x27 && StreamkapTransforms.ValueTransform) || \n" ++
  "                                  (typeof valueTransform !== \x27undefined\x27 ? valueTransform : ValueTransform);\n" ++
  "        var transformer = typeof ValueTransformClass === \x27function\x27 ? new ValueTransformClass() : ValueTransformClass;\n" ++
  "        var transformedRecord = transformer.transform(valueObject, keyObject, topic, timestamp);\n" ++
  "        return transformedRecord;\n" ++
  "    \x7d catch (error) \x7b\n" ++
  "        console.error(\x27Transform failed:\x27, error);\n" ++
  "        return valueObject; // Return original on error for fan_out\n" ++
  "    \x7d\n" ++
  "\x7d"

def tmplValueEnrichAsyncCode : String :=
  "// Async enrichment transform using template structure\n" ++
  "async function _streamkap_transform(valueObject, keyObject, topic, timestamp) \x7b\n" ++
  "    // Enrich (Async): Enrich records with external API calls\n" ++
  "    try \x7b\n" ++
  "        var ValueTransformClass = (typeof StreamkapTransforms !== \x27undefined\x27 && StreamkapTransforms.ValueTransform) || \n" ++
  "                                  (typeof valueTransform !== \x27undefined\x27 ? valueTransform : ValueTransform);\n" ++
  "        var transformer = typeof ValueTransformClass === \x27function\x27 ? new ValueTransformClass() : ValueTransformClass;\n" ++
  "        var transformedRecord = await transformer.transformAsync(valueObject, keyObject, topic, timestamp);\n" ++
  "        \n" ++
  "        return transformedRecord;\n" ++
  "    \x7d catch (error) \x7b\n" ++
  "        console.error(\x27Enrichment failed:\x27, error);\n" ++
  "        return valueObject; // Return original on error\n" ++
  "    \x7d\n" ++
  "\x7d"

def tmplValueUnNestingCode : String :=
  "// Un-nesting transform using template structure\n" ++
  "function _streamkap_transform(valueObject, keyObject, topic, timestamp) \x7b\n" ++
  "    // Un Nesting: Flatten nested objects/arrays\n" ++
  "    try \x7b\n" ++
  "        var ValueTransformClass = (typeof StreamkapTransforms !== \x27undefined\x27 && StreamkapTransforms.ValueTransform) || \n" ++
  "                                  (typeof valueTransform !== \x27undefined\x27 ? valueTransform : ValueTransform);\n" ++
  "        var transformer = typeof ValueTransformClass === \x27function\x27 ? new ValueTransformClass() : ValueTransformClass;\n" ++
  "        var transformedRecord = transformer.transformFlatten(valueObject, keyObject, topic, timestamp);\n" ++
  "        return transformedRecord;\n" ++
  "    \x7d catch (error) \x7b\n" ++
  "        console.error(\x27Un-nesting failed:\x27, error);\n" ++
  "        return valueObject; // Return original on error for un_nesting\n" ++
  "    \x7d\n" ++
  "\x7d"

def exValueMapFilterCode : String :=
  "// Main transform function for map_filter\n" ++
  "function _streamkap_transform(valueObject, keyObject, topic, timestamp) \x7b\n" ++
  "    // Map/Filter: Transform and optionally filter records\n" ++
  "    \n" ++
  "    // Filter out invalid records\n" ++
  "    if (!valueObject || !valueObject.customer || !valueObject.customer.name) \x7b\n" ++
  "        return null; // null = filter out this record\n" ++
  "    \x7d\n" ++
  "    \n" ++
  "    // Filter test records\n" ++
  "    if (valueObject._id && valueObject._id.includes(\x27test\x27)) \x7b\n" ++
  "        return null;\n" ++
  "    \x7d\n" ++
  "    \n" ++
  "    // Apply transformation using our OrderTransformer\n" ++
  "    var transformer = new OrderTransformer();\n" ++
  "    var transformedRecord = transformer.transform(valueObject);\n" ++
  "    \n" ++
  "    return transformedRecord;\n" ++
  "\x7d"

def exValueFanOutCode : String :=
  "// Value transform for fan_out (transforms the record before routing)\n" ++
  "function _streamkap_transform(valueObject, keyObject, topic, timestamp) \x7b\n" ++
  "    // Fan Out: Transform the record that will be sent to multiple topics\n" ++
  "    var transformer = new OrderTransformer();\n" ++
  "    var transformedRecord = transformer.transform(valueObject);\n" ++
  "    \n" ++
  "    transformedRecord.routing_info = \x7b\n" ++
  "        source_topic: topic,\n" ++
  "        processed_timestamp: timestamp,\n" ++
  "        routing_rules_applied: true\n" ++
  "    \x7d;\n" ++
  "    \n" ++
  "    return transformedRecord;\n" ++
  "\x7d"

def exValueEnrichAsyncCode : String :=
  "// Async enrichment transform\n" ++
  "async function _streamkap_transform(valueObject, keyObject, topic, timestamp) \x7b\n" ++
  "    // Enrich (Async): Enrich records with external API calls\n" ++
  "    try \x7b\n" ++
  "        var transformer = new OrderTransformer();\n" ++
  "        var transformedOrder = transformer.transform(valueObject);\n" ++
  "        \n" ++
  "        // Example async enrichment with REST API\n" ++
  "        if (transformedOrder.customer && transformedOrder.customer._id) \x7b\n" ++
  "            // Simulate async API call (replace with actual fetch/axios call)\n" ++
  "            var enrichmentData = await simulateApiCall(transformedOrder.customer._id);\n" ++
  "            \n" ++
  "            // Merge enrichment data\n" ++
  "            transformedOrder.customer = Object.assign(transformedOrder.customer, enrichmentData);\n" ++
  "            transformedOrder.enrichment_timestamp = new Date().toISOString();\n" ++
  "        \x7d\n" ++
  "        \n" ++
  "        return transformedOrder;\n" ++
  "    \x7d catch (error) \x7b\n" ++
  "        console.error(\x27Enrichment failed:\x27, error);\n" ++
  "        return valueObject; // Return original on error\n" ++
  "    \x7d\n" ++
  "\x7d\n" ++
  "\n" ++
  "// Simulate async API call\n" ++
  "async function simulateApiCall(customerId) \x7b\n" ++
  "    // In real implementation, replace with actual API call\n" ++
  "    return new Promise(resolve => \x7b\n" ++
  "        setTimeout(() => \x7b\n" ++
  "            resolve(\x7b\n" ++
  "                credit_score: 750,\n" ++
  "                loyalty_tier: \x27gold\x27,\n" ++
  "                last_order_date: \x272024-08-15T10:00:00Z\x27,\n" ++
  "                enriched_at: new Date().toISOString()\n" ++
  "            \x7d);\n" ++
  "        \x7d, 100);\n" ++
  "    \x7d);\n" ++
  "\x7d"

def exValueUnNestingCode : String :=
  "// Un-nesting transform to flatten nested structures\n" ++
  "function _streamkap_transform(valueObject, keyObject, topic, timestamp) \x7b\n" ++
  "    // Un Nesting: Flatten nested objects/arrays\n" ++
  "    if (!valueObject) return null;\n" ++
  "    \n" ++
  "    var transformer = new OrderTransformer();\n" ++
  "    var baseRecord = transformer.transform(valueObject);\n" ++
  "    \n" ++
  "    // Flatten customer object\n" ++
  "    if (baseRecord.customer) \x7b\n" ++
  "        baseRecord.customer_id = baseRecord.customer._id;\n" ++
  "        baseRecord.customer_name = baseRecord.customer.name;\n" ++
  "        baseRecord.customer_organization_id = baseRecord.customer.organization_id;\n" ++
  "        baseRecord.customer_version = baseRecord.customer.version;\n" ++
  "        \n" ++
  "        // Remove nested customer object\n" ++
  "        delete baseRecord.customer;\n" ++
  "    \x7d\n" ++
  "    \n" ++
  "    baseRecord.flattened_at = new Date().toISOString();\n" ++
  "    baseRecord.original_structure_preserved = false;\n" ++
  "    \n" ++
  "    return baseRecord;\n" ++
  "\x7d"

def tmplKeyTransformCode : String :=
  "// Key transform function using template structure\n" ++
  "function _streamkap_transform_key(valueObject, keyObject, topic, timestamp) \x7b\n" ++
  "    // Transform the record key using template-based logic\n" ++
  "    var KeyTransformClass = (typeof StreamkapTransforms !== \x27undefined\x27 && StreamkapTransforms.KeyTransform) || \n" ++
  "                              (typeof keyTransform !== \x27undefined\x27 ? keyTransform : KeyTransform);\n" ++
  "    var transformer = typeof KeyTransformClass === \x27function\x27 ? new KeyTransformClass() : KeyTransformClass;\n" ++
  "    return transformer.transform(valueObject, keyObject, topic, timestamp);\n" ++
  "\x7d"

def exKeyTransformCode : String :=
  "// Key transform function\n" ++
  "function _streamkap_transform_key(valueObject, keyObject, topic, timestamp) \x7b\n" ++
  "    // Transform the record key based on business logic\n" ++
  "    if (valueObject && valueObject.order_type === \x27OrderType1\x27) \x7b\n" ++
  "        return \x27express-\x27 + keyObject;\n" ++
  "    \x7d else if (valueObject && valueObject.order_type === \x27OrderType2\x27) \x7b\n" ++
  "        return \x27rpos-\x27 + keyObject;\n" ++
  "    \x7d\n" ++
  "    \n" ++
  "    var moment = require(\x27moment\x27);\n" ++
  "    var datePrefix = moment(timestamp).format(\x27YYYY-MM-DD\x27);\n" ++
  "    return datePrefix + \x27-\x27 + keyObject;\n" ++
  "\x7d"

def tmplTopicTransformCode : String :=
  "// Topic transform function using template structure\n" ++
  "function _streamkap_transform_topic(valueObject, keyObject, topic, timestamp) \x7b\n" ++
  "    // Fan Out: Route records to different topics using template-based logic\n" ++
  "    var TopicTransformClass = (typeof StreamkapTransforms !== \x27undefined\x27 && StreamkapTransforms.TopicTransform) || \n" ++
  "                                (typeof topicTransform !== \x27undefined\x27 ? topicTransform : TopicTransform);\n" ++
  "    var transformer = typeof TopicTransformClass === \x27function\x27 ? new TopicTransformClass() : TopicTransformClass;\n" ++
  "    return transformer.transform(valueObject, keyObject, topic, timestamp);\n" ++
  "\x7d"

def exTopicTransformCode : String :=
  "// Topic transform function for fan-out routing\n" ++
  "function _streamkap_transform_topic(valueObject, keyObject, topic, timestamp) \x7b\n" ++
  "    // Fan Out: Route records to different topics based on business logic\n" ++
  "    var topics = [];\n" ++
  "    \n" ++
  "    // Primary routing based on channel\n" ++
  "    if (valueObject && valueObject.channel === \x27express\x27) \x7b\n" ++
  "        topics.push(\x27orders-express-processed\x27);\n" ++
  "    \x7d else if (valueObject && valueObject.channel === \x27rpos\x27) \x7b\n" ++
  "        topics.push(\x27orders-rpos-processed\x27);\n" ++
  "    \x7d else \x7b\n" ++
  "        topics.push(\x27orders-processed\x27);\n" ++
  "    \x7d\n" ++
  "    \n" ++
  "    // High-value orders get additional routing\n" ++
  "    if (valueObject && valueObject.order_number > 50000) \x7b\n" ++
  "        topics.push(\x27orders-high-value\x27);\n" ++
  "    \x7d\n" ++
  "    \n" ++
  "    // Error orders get special routing\n" ++
  "    if (valueObject && !valueObject.customer) \x7b\n" ++
  "        topics.push(\x27orders-errors\x27);\n" ++
  "    \x7d\n" ++
  "    \n" ++
  "    // Return array for fan-out or single topic for simple routing\n" ++
  "    return topics.length > 1 ? topics : topics[0];\n" ++
  "\x7d"

def sharedUtilitiesCode : String :=
  "// Shared utilities (bundled into each transform for self-containment)\n" ++
  "\n" ++
  "function formatTimestamp(timestamp) \x7b\n" ++
  "    var moment = require(\x27moment\x27);\n" ++
  "    return moment(timestamp).format(\x27YYYY-MM-DD HH:mm:ss\x27);\n" ++
  "\x7d\n" ++
  "\n" ++
  "function generateProcessingId() \x7b\n" ++
  "    return \x27proc-\x27 + Math.random().toString(36).substr(2, 9);\n" ++
  "\x7d\n" ++
  "\n" ++
  "function validateOrderStructure(order) \x7b\n" ++
  "    // Validate basic order structure\n" ++
  "    return order && \n" ++
  "           typeof order._id === \x27string\x27 && \n" ++
  "           typeof order.order_number === \x27number\x27 &&\n" ++
  "           order.customer && \n" ++
  "           typeof order.customer.name === \x27string\x27;\n" ++
  "\x7d\n" ++
  "\n" ++
  "function safeStringify(obj) \x7b\n" ++
  "    // Safe JSON stringify with error handling\n" ++
  "    try \x7b\n" ++
  "        return JSON.stringify(obj);\n" ++
  "    \x7d catch (e) \x7b\n" ++
  "        return \x27[Unable to stringify object]\x27;\n" ++
  "    \x7d\n" ++
  "\x7d"

/-- The `default` branch of the template-mode `generateValueTransform`. -/
def tmplValueDefaultCode (ttype : String) : String :=
  "// Value transform for " ++ ttype ++ " using template structure\n" ++
  "function _streamkap_transform(valueObject, keyObject, topic, timestamp) \x7b\n" ++
  "    var transformer = valueTransform;\n" ++
  "    return transformer.transform(valueObject, keyObject, topic, timestamp);\n" ++
  "\x7d"

/-- The `default` branch of the example-mode `generateValueTransform`. -/
def exValueDefaultCode (ttype : String) : String :=
  "// Value transform for " ++ ttype ++ "\n" ++
  "function _streamkap_transform(valueObject, keyObject, topic, timestamp) \x7b\n" ++
  "    var transformer = new OrderTransformer();\n" ++
  "    return transformer.transform(valueObject);\n" ++
  "\x7d"

/-- One entry of the static `transforms` configuration array. -/
structure TransformDesc where
  name : String
  type : String
  language : String
  description : String
  functions : List String
  folder : String

/-- The `transforms` table of build-multiple.js. -/
def transformsTable : List TransformDesc :=
  [ { name := "mapFilterTransform", type := "map_filter",
      language := "JAVASCRIPT",
      description := "Map/Filter transform - modify and filter records",
      functions := ["valueTransform", "keyTransform"], folder := "map-filter" },
    { name := "fanOutTransform", type := "fan_out",
      language := "JAVASCRIPT",
      description := "Fan Out - route records to multiple topics",
      functions := ["valueTransform", "topicTransform"], folder := "fan-out" },
    { name := "enrichAsyncTransform", type := "enrich_async",
      language := "JAVASCRIPT",
      description := "Async Enrich - enrich records with REST API calls",
      functions := ["valueTransform"], folder := "enrich-async" },
    { name := "unNestingTransform", type := "un_nesting",
      language := "JAVASCRIPT",
      description := "Un Nesting - flatten nested objects/arrays",
      functions := ["valueTransform"], folder := "un-nesting" } ]

/-- Model of `'some-flag'.replace('-', '_')`: JavaScript `replace` with a string
pattern replaces the first occurrence only. -/
def replaceFirstChar : List Char → Char → Char → List Char
  | [], _, _ => []
  | c :: t, a, b => if c = a then b :: t else c :: replaceFirstChar t a b

/-- Model of `parseArgs`: the set of requested transform types and the
`buildAll` flag (the tests `arg.startsWith` of two dashes and
`arg.substring(2)` are
spelled on character lists). -/
def parseArgs (args : List String) : List String × Bool :=
  if args.isEmpty || args.contains "--all" then ([], true)
  else
    (args.filterMap (fun a =>
       if startsWithL a.data "--".data then
         some ⟨replaceFirstChar (a.data.drop 2) '-' '_'⟩
       else none),
     false)

/-- Model of `generateFileHeader(transform, funcType)`. -/
def generateFileHeader (t : TransformDesc) (funcType genTs : String) : String :=
  "// Streamkap " ++ t.type ++ " Transform (" ++ t.language ++ ")\n" ++
  "// " ++ t.description ++ "\n" ++
  "// Function: " ++ funcType ++ "\n" ++
  "// Generated on: " ++ genTs ++ "\n" ++
  "// \n" ++
  "// Implementation details:\n" ++
  "// - Transform type: " ++ t.type ++ "\n" ++
  "// - Language: " ++ t.language ++ "\n" ++
  "// - Function type: " ++ funcType ++ "\n" ++
  "\n"

/-- Model of `generateValueTransform(transform, useTemplateStructure)`. -/
def generateValueTransform (t : TransformDesc) (tmpl : Bool) : String :=
  if tmpl then
    if t.type = "map_filter" then tmplValueMapFilterCode
    else if t.type = "fan_out" then tmplValueFanOutCode
    else if t.type = "enrich_async" then tmplValueEnrichAsyncCode
    else if t.type = "un_nesting" then tmplValueUnNestingCode
    else tmplValueDefaultCode t.type
  else
    if t.type = "map_filter" then exValueMapFilterCode
    else if t.type = "fan_out" then exValueFanOutCode
    else if t.type = "enrich_async" then exValueEnrichAsyncCode
    else if t.type = "un_nesting" then exValueUnNestingCode
    else exValueDefaultCode t.type

/-- Model of `generateKeyTransform(transform, useTemplateStructure)`. -/
def generateKeyTransform (t : TransformDesc) (tmpl : Bool) : String :=
  if tmpl then tmplKeyTransformCode else exKeyTransformCode

/-- Model of `generateTopicTransform(transform, useTemplateStructure)`. -/
def generateTopicTransform (t : TransformDesc) (tmpl : Bool) : String :=
  if tmpl then tmplTopicTransformCode else exTopicTransformCode

/-- Model of `generateJavaScriptFunction(transform, funcType, useTemplateStructure)`. -/
def generateJavaScriptFunction (t : TransformDesc) (funcType : String)
    (tmpl : Bool) : String :=
  if funcType = "valueTransform" then generateValueTransform t tmpl
  else if funcType = "keyTransform" then generateKeyTransform t tmpl
  else if funcType = "topicTransform" then generateTopicTransform t tmpl
  else "// TODO: Implement " ++ funcType ++ " for " ++ t.type

/-- The text written for one function role of one transform:
header, then the esbuild bundle, then the shared utilities, then the
role-specific generated function. -/
def emittedFileText (t : TransformDesc) (funcType : String) (tmpl : Bool)
    (mainCode genTs : String) : String :=
  generateFileHeader t funcType genTs ++ (mainCode ++ "\n\n") ++
    (sharedUtilitiesCode ++ "\n\n") ++
    generateJavaScriptFunction t funcType tmpl

/-- The per-transform emission loop of `buildTransforms`: for each
selected JAVASCRIPT transform, one `<folder>/<funcType>.js` file per
required function role. -/
def emitTransform (t : TransformDesc) (tmpl : Bool) (mainCode genTs : String) :
    List (String × String) :=
  if t.language = "JAVASCRIPT" then
    t.functions.map (fun funcType =>
      ("transforms/" ++ t.folder ++ "/" ++ funcType ++ ".js",
        emittedFileText t funcType tmpl mainCode genTs))
  else []

/-- Model of `buildTransforms`: parse the arguments, select the transforms to
build, and emit their files; `none` models `process.exit(1)` when no
valid transform type was requested. -/
def buildJsWrites (args : List String) (tmpl : Bool) (mainCode genTs : String) :
    Option (List (String × String)) :=
  let (requested, buildAll) := parseArgs args
  let toBuild :=
    if buildAll then transformsTable
    else transformsTable.filter (fun t => requested.contains t.type)
  if !buildAll && toBuild.isEmpty then none
  else some (toBuild.flatMap (fun t => emitTransform t tmpl mainCode genTs))

/-! ## Theorems

Helper lemmas first, then one theorem (with counterexample and witness
where applicable) per claim. -/

theorem containsL_append_right (a b pat : List Char)
    (h : containsL b pat = true) : containsL (a ++ b) pat = true := by
  induction a with
  | nil => simpa using h
  | cons c cs ih =>
    rw [List.cons_append]
    unfold containsL
    simp only [ih, Bool.or_true]

theorem strContains_append_right (a b pat : String)
    (h : strContains b pat = true) : strContains (a ++ b) pat = true := by
  unfold strContains at h ⊢
  rw [String.data_append]
  exact containsL_append_right _ _ _ h

/-- C1: for every shape-A input (`order_type` is `OrderType1`): the
`_id` of the output equals the `_id` of the input and its `organization_id`
is the top-level `organization_id` of the input; for every shape-B input (any other
`order_type`, with the nested customer that the `OrderType2` interface
requires), the `_id` of the output is the `order_id` of the input and its
`organization_id` is the nested `customer.organization_id`. -/
theorem c1_transform_canonical_ids (ord : InputOrder) (nowIso nowFmt pid : String) :
    (ord.order_type = "OrderType1" →
      ∃ m, OrderTransformer.transform ord nowIso nowFmt pid = some m ∧
        m._id = ord._id ∧ m.organization_id = ord.organization_id) ∧
    (ord.order_type ≠ "OrderType1" → ∀ c, ord.customer = some c →
      ∃ m, OrderTransformer.transform ord nowIso nowFmt pid = some m ∧
        m._id = ord.order_id ∧ m.organization_id = c.organization_id) := by
  constructor
  · intro h
    unfold OrderTransformer.transform OrderTransformer.transformOrderType1
    rw [if_pos h]
    exact ⟨_, rfl, rfl, rfl⟩
  · intro h c hc
    unfold OrderTransformer.transform OrderTransformer.transformOrderType2
    rw [if_neg h, hc]
    exact ⟨_, rfl, rfl, rfl⟩

/-- Witness for C1 at one concrete order of each shape. -/
theorem c1_transform_canonical_ids_witness :
    (∃ m, OrderTransformer.transform
        ⟨some "express-1", none, "OrderType1", 5, "loc-1", "express",
          some ⟨"c-1", some "Ann", some "org-c", "0.1.4"⟩, some "org-top"⟩
        "t" "f" "p" = some m ∧
      m._id = some "express-1" ∧ m.organization_id = some "org-top") ∧
    (∃ m, OrderTransformer.transform
        ⟨none, some "rpos-2", "OrderType2", 6, "loc-2", "rpos",
          some ⟨"c-2", some "Bob", some "org-c2", "0.1.4"⟩, none⟩
        "t" "f" "p" = some m ∧
      m._id = some "rpos-2" ∧ m.organization_id = some "org-c2") := by
  constructor
  · exact (c1_transform_canonical_ids _ "t" "f" "p").1 rfl
  · exact (c1_transform_canonical_ids
      ⟨none, some "rpos-2", "OrderType2", 6, "loc-2", "rpos",
        some ⟨"c-2", some "Bob", some "org-c2", "0.1.4"⟩, none⟩ "t" "f" "p").2
      (by decide) _ rfl

/-- C6: in any record the transformer returns, `has_valid_customer` is
true exactly when the nested `customer.name` of the input is present and
non-empty. -/
theorem c6_has_valid_customer_iff (ord : InputOrder) (nowIso nowFmt pid : String)
    (m : MergedOrder)
    (h : OrderTransformer.transform ord nowIso nowFmt pid = some m) :
    m.has_valid_customer = true ↔
      ∃ s, nestedCustomerName ord = some s ∧ s ≠ "" := by
  have hm : m.has_valid_customer = hasValidCustomer ord := by
    unfold OrderTransformer.transform at h
    split at h
    · cases h
      rfl
    · unfold OrderTransformer.transformOrderType2 at h
      cases hc : ord.customer with
      | none => rw [hc] at h; cases h
      | some c => rw [hc] at h; cases h; rfl
  rw [hm]
  unfold hasValidCustomer nestedCustomerName
  cases hc : ord.customer with
  | none => simp
  | some c =>
    cases hn : c.name with
    | none => simp [hn]
    | some s => simp [hn]

/-- Witness for C6: a record with a present, non-empty customer name. -/
theorem c6_has_valid_customer_iff_witness :
    (OrderTransformer.transform
        ⟨some "express-1", none, "OrderType1", 5, "loc-1", "express",
          some ⟨"c-1", some "Ann", some "org-c", "0.1.4"⟩, some "org-top"⟩
        "t" "f" "p").map MergedOrder.has_valid_customer = some true := by
  have h :
      OrderTransformer.transform
        ⟨some "express-1", none, "OrderType1", 5, "loc-1", "express",
          some ⟨"c-1", some "Ann", some "org-c", "0.1.4"⟩, some "org-top"⟩
        "t" "f" "p" =
      some (OrderTransformer.transformOrderType1
        ⟨some "express-1", none, "OrderType1", 5, "loc-1", "express",
          some ⟨"c-1", some "Ann", some "org-c", "0.1.4"⟩, some "org-top"⟩
        "t" "f" "p") := rfl
  have hv :=
    (c6_has_valid_customer_iff _ "t" "f" "p" _ h).2 ⟨"Ann", rfl, by decide⟩
  rw [h, Option.map_some', hv]

/-- C7: the transformer is deterministic modulo the generated uuid and
the two clock-derived fields: two invocations on the same input agree on
every other field (here: after erasing `processing_id`, `processed_at`
and `processed_time` the outputs are equal). -/
theorem c7_deterministic_modulo_metadata (ord : InputOrder)
    (n1 f1 p1 n2 f2 p2 : String) :
    (OrderTransformer.transform ord n1 f1 p1).map eraseMeta =
      (OrderTransformer.transform ord n2 f2 p2).map eraseMeta := by
  unfold OrderTransformer.transform OrderTransformer.transformOrderType1
    OrderTransformer.transformOrderType2
  split
  · simp [eraseMeta]
  · cases ord.customer <;> simp [eraseMeta]

/-- C3 counterexample: the classification is not applied uniformly.  At
`t = 1e11` (11 digits, milliseconds per the claim, so it should be
returned unchanged) `KeyTransform.normalizeTimestamp` multiplies by
1000 instead: its only cut-off is `1e12`. -/
theorem c3_counterexample :
    KeyTransform.normalizeTimestamp 100000000000 = 100000000000000 ∧
    (100000000000000 : Int) ≠ 100000000000 := by
  constructor
  · norm_num [KeyTransform.normalizeTimestamp]
  · norm_num

/-- C3 amended: `CommonTransform.normalizeTimestamp` classifies every
positive `t` by the stated digit-count thresholds (`1e10`, `1e13`,
`1e16`) and rescales to milliseconds, but `KeyTransform.normalizeTimestamp`
does not share that classification: it multiplies every `t` below `1e12`
by 1000 and returns every other `t` unchanged. -/
theorem c3_amended_normalize_thresholds (t now : Int) (ht : 0 < t) :
    (t < 10 ^ 10 → CommonTransform.normalizeTimestamp t now = t * 1000) ∧
    (10 ^ 10 ≤ t → t < 10 ^ 13 → CommonTransform.normalizeTimestamp t now = t) ∧
    (10 ^ 13 ≤ t → t < 10 ^ 16 →
      CommonTransform.normalizeTimestamp t now = t / 1000) ∧
    (10 ^ 16 ≤ t → CommonTransform.normalizeTimestamp t now = t / 1000000) ∧
    (t < 10 ^ 12 → KeyTransform.normalizeTimestamp t = t * 1000) ∧
    (10 ^ 12 ≤ t → KeyTransform.normalizeTimestamp t = t) := by
  unfold CommonTransform.normalizeTimestamp KeyTransform.normalizeTimestamp
  refine ⟨fun h1 => ?_, fun h1 h2 => ?_, fun h1 h2 => ?_, fun h1 => ?_,
    fun h1 => ?_, fun h1 => ?_⟩
  · rw [if_neg (by omega), if_pos (by omega)]
  · rw [if_neg (by omega), if_neg (by omega), if_pos (by omega)]
  · rw [if_neg (by omega), if_neg (by omega), if_neg (by omega), if_pos (by omega)]
  · rw [if_neg (by omega), if_neg (by omega), if_neg (by omega), if_neg (by omega)]
  · rw [if_pos (by omega)]
  · rw [if_neg (by omega)]

/-- Witness for the amended C3 at `t = 5` (seconds in both rules). -/
theorem c3_amended_normalize_thresholds_witness :
    (0 : Int) < 5 ∧ CommonTransform.normalizeTimestamp 5 0 = 5000 ∧
      KeyTransform.normalizeTimestamp 5 = 5000 := by
  have h := c3_amended_normalize_thresholds 5 0 (by norm_num)
  exact ⟨by norm_num, h.1 (by norm_num), h.2.2.2.2.1 (by norm_num)⟩

theorem problematicChar_underscore : problematicChar '_' = false := by decide

theorem controlChar_underscore : controlChar '_' = false := by decide

/-- C10: sanitization establishes validity: for every string, including
the empty one, `sanitizeKey` returns a key that `validateKey` accepts. -/
theorem c10_sanitize_establishes_valid (k : String) :
    validateKey (sanitizeKey k) = true := by
  unfold sanitizeKey
  by_cases hk : k.data.isEmpty
  · rw [if_pos hk]
    decide
  · rw [if_neg hk]
    set s := k.data.map (fun c =>
      if problematicChar c || controlChar c then '_' else c) with hs
    have hclean : ∀ c ∈ s, problematicChar c = false ∧ controlChar c = false := by
      intro c hc
      rw [hs] at hc
      obtain ⟨c0, _, hc0⟩ := List.mem_map.mp hc
      by_cases h0 : problematicChar c0 || controlChar c0
      · rw [if_pos h0] at hc0
        rw [← hc0]
        exact ⟨problematicChar_underscore, controlChar_underscore⟩
      · rw [if_neg h0] at hc0
        rw [← hc0]
        constructor
        · exact Bool.eq_false_iff.mpr fun hp =>
            h0 (Bool.or_eq_true_iff.mpr (Or.inl hp))
        · exact Bool.eq_false_iff.mpr fun hp =>
            h0 (Bool.or_eq_true_iff.mpr (Or.inr hp))
    by_cases hlen : s.length > 255
    · rw [if_pos hlen]
      unfold validateKey
      have hdata : (String.mk (s.take 252 ++ "...".data)).data
          = s.take 252 ++ "...".data := rfl
      have hsub : ∀ c ∈ s.take 252 ++ "...".data,
          problematicChar c = false ∧ controlChar c = false := by
        intro c hc
        rcases List.mem_append.mp hc with h | h
        · exact hclean c (List.mem_of_mem_take h)
        · exact (by decide :
            ∀ c ∈ "...".data, problematicChar c = false ∧ controlChar c = false) c h
      rw [hdata]
      have hl : (s.take 252 ++ "...".data).length = 255 := by
        rw [List.length_append, List.length_take]
        have h3 : ("...".data).length = 3 := by decide
        omega
      rw [if_neg (by
        intro he
        rw [List.isEmpty_iff] at he
        rw [he] at hl
        simp at hl)]
      rw [if_neg (by omega)]
      rw [if_neg (by
        rw [List.any_eq_true]
        rintro ⟨c, hc, hp⟩
        rw [(hsub c hc).1] at hp
        cases hp)]
      rw [if_neg (by
        rw [List.any_eq_true]
        rintro ⟨c, hc, hp⟩
        rw [(hsub c hc).2] at hp
        cases hp)]
    · rw [if_neg hlen]
      unfold validateKey
      have hdata : (String.mk s).data = s := rfl
      rw [hdata]
      have hne : ¬ s.isEmpty = true := by
        rw [List.isEmpty_iff]
        intro he
        rw [hs] at he
        rw [List.map_eq_nil_iff] at he
        exact hk (List.isEmpty_iff.mpr he)
      rw [if_neg hne]
      rw [if_neg hlen]
      rw [if_neg (by
        rw [List.any_eq_true]
        rintro ⟨c, hc, hp⟩
        rw [(hclean c hc).1] at hp
        cases hp)]
      rw [if_neg (by
        rw [List.any_eq_true]
        rintro ⟨c, hc, hp⟩
        rw [(hclean c hc).2] at hp
        cases hp)]

theorem idOk_truthy {v : JsValue} (h : CommonTransform.idOk v = true) :
    truthy v = true := by
  unfold CommonTransform.idOk at h
  exact (Bool.and_eq_true _ _).mp h |>.1

/-- A record accepted by `validateRecord` has a truthy
`record.id || record._id || record.order_id` chain. -/
theorem validateRecord_truthy_idField (record : JsValue)
    (h : CommonTransform.validateRecord record = true) :
    truthy (CommonTransform.idField record) = true := by
  have hor : CommonTransform.idOk (getProp record "id") = true ∨
      CommonTransform.idOk (getProp record "_id") = true ∨
      CommonTransform.idOk (getProp record "order_id") = true := by
    unfold CommonTransform.validateRecord at h
    cases record with
    | obj o =>
      have := (Bool.and_eq_true _ _).mp h |>.1
      rcases (Bool.or_eq_true_iff.mp this) with h1 | h2
      · rcases Bool.or_eq_true_iff.mp h1 with h1a | h1b
        · exact Or.inl h1a
        · exact Or.inr (Or.inl h1b)
      · exact Or.inr (Or.inr h2)
    | arr a =>
      have := (Bool.and_eq_true _ _).mp h |>.1
      rcases (Bool.or_eq_true_iff.mp this) with h1 | h2
      · rcases Bool.or_eq_true_iff.mp h1 with h1a | h1b
        · exact Or.inl h1a
        · exact Or.inr (Or.inl h1b)
      · exact Or.inr (Or.inr h2)
    | undefv => cases h
    | nullv => cases h
    | bool b => cases h
    | num n => cases h
    | str s => cases h
  unfold CommonTransform.idField jsOr
  by_cases h1 : truthy (getProp record "id")
  · rw [if_pos h1]; exact h1
  · rw [if_neg h1]
    by_cases h2 : truthy (getProp record "_id")
    · rw [if_pos h2]; exact h2
    · rw [if_neg h2]
      rcases hor with ha | hb | hc
      · exact absurd (idOk_truthy ha) h1
      · exact absurd (idOk_truthy hb) h2
      · exact idOk_truthy hc

/-- C2 counterexample: the map_filter filtering is not case-insensitive.
The example-based generated map_filter function keeps a record whose
`_id` is `EXPRESS-TEST-1` — an identifier that contains `test` when
compared case-insensitively — because its filter tests
`valueObject._id.includes` with pattern `test` case-sensitively. -/
theorem c2_counterexample :
    strContains (toLowerJs "EXPRESS-TEST-1") "test" = true ∧
    mapFilterExample
      (some ⟨some "EXPRESS-TEST-1", none, "OrderType1", 5, "loc", "express",
        some ⟨"c-1", some "Ann", some "org", "0.1.4"⟩, some "org"⟩)
      "t" "f" "p" ≠ none := by
  constructor
  · decide
  · decide

/-- C2 amended: the two drop rules exist, but on different map_filter
variants and with different matching.  The example-based generated
map_filter drops any input lacking a truthy nested customer name and any
input whose present, non-empty `_id` contains `test`
(case-sensitively); the case-insensitive identifier test (over
`id || _id || order_id`, also matching `mock` and `dummy`) belongs
to the template path function `CommonTransform.shouldKeepRecord`, whose `false`
result `ValueTransform.transform` turns into `null` — and that path has
no customer-name check. -/
theorem c2_amended_map_filter_drops :
    (∀ ord nowIso nowFmt pid, customerNameTruthy ord = false →
      mapFilterExample (some ord) nowIso nowFmt pid = none) ∧
    (∀ ord nowIso nowFmt pid s, ord._id = some s → s ≠ "" →
      strContains s "test" = true →
      mapFilterExample (some ord) nowIso nowFmt pid = none) ∧
    (∀ record,
      strContains (toLowerJs (toStringJs (CommonTransform.idField record)))
          "test" = true →
      CommonTransform.shouldKeepRecord record = false) := by
  refine ⟨?_, ?_, ?_⟩
  · intro ord nowIso nowFmt pid h
    simp [mapFilterExample, h]
  · intro ord nowIso nowFmt pid s hid hne hcon
    by_cases hc : customerNameTruthy ord
    · simp [mapFilterExample, hid, hne, hcon, hc]
    · rw [Bool.not_eq_true] at hc
      simp [mapFilterExample, hc]
  · intro record hcon
    unfold CommonTransform.shouldKeepRecord
    by_cases hv : CommonTransform.validateRecord record
    · have ht := validateRecord_truthy_idField record hv
      simp [hv, ht, hcon]
    · rw [Bool.not_eq_true] at hv
      simp [hv]

theorem lookup_setField_self : ∀ (o : JsObj) (k : String) (v : JsValue),
    (setField o k v).lookup k = some v
  | .nil, k, v => by simp [setField, JsObj.lookup]
  | .cons k' v' t, k, v => by
    unfold setField
    by_cases h : k' = k
    · rw [if_pos h]
      simp [JsObj.lookup, h]
    · rw [if_neg h]
      simp [JsObj.lookup, h, lookup_setField_self t k v]

theorem lookup_setField_ne : ∀ (o : JsObj) (k' : String) (v : JsValue)
    (k : String), k' ≠ k → (setField o k' v).lookup k = o.lookup k
  | .nil, k', v, k, h => by simp [setField, JsObj.lookup, h]
  | .cons k0 v0 t, k', v, k, h => by
    unfold setField
    by_cases h0 : k0 = k'
    · rw [if_pos h0]
      have hne : k0 ≠ k := h0 ▸ h
      simp [JsObj.lookup, hne]
    · rw [if_neg h0]
      by_cases h1 : k0 = k
      · simp [JsObj.lookup, h1]
      · simp [JsObj.lookup, h1, lookup_setField_ne t k' v k h]

theorem lookup_removeKey_ne : ∀ (o : JsObj) (k' k : String), k' ≠ k →
    (removeKey o k').lookup k = o.lookup k
  | .nil, k', k, h => by simp [removeKey]
  | .cons k0 v0 t, k', k, h => by
    unfold removeKey
    by_cases h0 : k0 = k'
    · rw [if_pos h0]
      have hne : k0 ≠ k := h0 ▸ h
      simp [JsObj.lookup, hne, lookup_removeKey_ne t k' k h]
    · rw [if_neg h0]
      by_cases h1 : k0 = k
      · simp [JsObj.lookup, h1]
      · simp [JsObj.lookup, h1, lookup_removeKey_ne t k' k h]

theorem lookup_prefixMetadata_ne : ∀ (md : JsObj) (acc : JsObj) (k : String),
    (∀ k0, ("metadata_" ++ k0) ≠ k) →
    (prefixMetadata acc md).lookup k = acc.lookup k
  | .nil, acc, k, h => by simp [prefixMetadata]
  | .cons k0 v0 t, acc, k, h => by
    unfold prefixMetadata
    rw [lookup_prefixMetadata_ne t _ k h]
    exact lookup_setField_ne _ _ _ _ (h k0)

theorem lookup_remUndefObj : ∀ (o : JsObj) (k : String) (v : JsValue),
    o.lookup k = some v → v ≠ .undefv →
    (remUndefObj o).lookup k = some (remUndefVal v)
  | .nil, k, v, hv, h => by cases hv
  | .cons k0 v0 t, k, v, hv, h => by
    unfold JsObj.lookup at hv
    by_cases h0 : k0 = k
    · rw [if_pos h0] at hv
      cases hv
      unfold remUndefObj
      cases v0 with
      | undefv => exact absurd rfl h
      | nullv => simp [JsObj.lookup, h0]
      | bool b => simp [JsObj.lookup, h0]
      | num n => simp [JsObj.lookup, h0]
      | str s => simp [JsObj.lookup, h0]
      | arr a => simp [JsObj.lookup, h0]
      | obj oo => simp [JsObj.lookup, h0]
    · rw [if_neg h0] at hv
      unfold remUndefObj
      cases v0 with
      | undefv => exact lookup_remUndefObj t k v hv h
      | nullv => simp [JsObj.lookup, h0, lookup_remUndefObj t k v hv h]
      | bool b => simp [JsObj.lookup, h0, lookup_remUndefObj t k v hv h]
      | num n => simp [JsObj.lookup, h0, lookup_remUndefObj t k v hv h]
      | str s => simp [JsObj.lookup, h0, lookup_remUndefObj t k v hv h]
      | arr a => simp [JsObj.lookup, h0, lookup_remUndefObj t k v hv h]
      | obj oo => simp [JsObj.lookup, h0, lookup_remUndefObj t k v hv h]

theorem lookup_jsonCloneObj : ∀ (o : JsObj) (k : String) (v : JsValue),
    o.lookup k = some v → v ≠ .undefv →
    (jsonCloneObj o).lookup k = some (jsonCloneVal v)
  | .nil, k, v, hv, h => by cases hv
  | .cons k0 v0 t, k, v, hv, h => by
    unfold JsObj.lookup at hv
    by_cases h0 : k0 = k
    · rw [if_pos h0] at hv
      cases hv
      unfold jsonCloneObj
      cases v0 with
      | undefv => exact absurd rfl h
      | nullv => simp [JsObj.lookup, h0]
      | bool b => simp [JsObj.lookup, h0]
      | num n => simp [JsObj.lookup, h0]
      | str s => simp [JsObj.lookup, h0]
      | arr a => simp [JsObj.lookup, h0]
      | obj oo => simp [JsObj.lookup, h0]
    · rw [if_neg h0] at hv
      unfold jsonCloneObj
      cases v0 with
      | undefv => exact lookup_jsonCloneObj t k v hv h
      | nullv => simp [JsObj.lookup, h0, lookup_jsonCloneObj t k v hv h]
      | bool b => simp [JsObj.lookup, h0, lookup_jsonCloneObj t k v hv h]
      | num n => simp [JsObj.lookup, h0, lookup_jsonCloneObj t k v hv h]
      | str s => simp [JsObj.lookup, h0, lookup_jsonCloneObj t k v hv h]
      | arr a => simp [JsObj.lookup, h0, lookup_jsonCloneObj t k v hv h]
      | obj oo => simp [JsObj.lookup, h0, lookup_jsonCloneObj t k v hv h]

theorem metadata_pre_ne_customer (k0 : String) :
    ("metadata_" ++ k0) ≠ "customer" := by
  intro h
  have h1 : ("metadata_" ++ k0).data.head? = some 'm' := by
    rw [String.data_append]
    rfl
  rw [h] at h1
  exact absurd h1 (by decide)

/-- The template `CommonTransform.flattenRecord` never touches a key
outside `user*`, `metadata*` and its own stamps: such a key survives
flattening with its value (cleaned of `undefined`). -/
theorem flattenRecord_keeps_key (o : JsObj) (nowIso : String) (k : String)
    (h1 : k ≠ "user_id") (h2 : k ≠ "user_name") (h3 : k ≠ "user_email")
    (h4 : k ≠ "user") (h5 : k ≠ "metadata")
    (h6 : ∀ k0, ("metadata_" ++ k0) ≠ k)
    (h7 : k ≠ "flattened_at") (h8 : k ≠ "original_structure_preserved")
    (h9 : k ≠ "flatten_version")
    (v : JsValue) (hv : o.lookup k = some v) (hund : v ≠ .undefv) :
    (spreadFields (CommonTransform.flattenRecord (.obj o) nowIso)).lookup k =
      some (remUndefVal v) := by
  unfold CommonTransform.flattenRecord
  simp only [spreadFields]
  split <;> split <;>
    refine lookup_remUndefObj _ _ _ ?_ hund <;>
    rw [lookup_setField_ne _ _ _ _ (Ne.symm h9),
      lookup_setField_ne _ _ _ _ (Ne.symm h8),
      lookup_setField_ne _ _ _ _ (Ne.symm h7)] <;>
    first
    | exact hv
    | (rw [lookup_removeKey_ne _ _ _ (Ne.symm h4),
        lookup_setField_ne _ _ _ _ (Ne.symm h3),
        lookup_setField_ne _ _ _ _ (Ne.symm h2),
        lookup_setField_ne _ _ _ _ (Ne.symm h1)]
       exact hv)
    | (rw [lookup_removeKey_ne _ _ _ (Ne.symm h5),
        lookup_prefixMetadata_ne _ _ _ h6]
       first
       | exact hv
       | (rw [lookup_removeKey_ne _ _ _ (Ne.symm h4),
           lookup_setField_ne _ _ _ _ (Ne.symm h3),
           lookup_setField_ne _ _ _ _ (Ne.symm h2),
           lookup_setField_ne _ _ _ _ (Ne.symm h1)]
          exact hv))

/-- C5 counterexample: the template un-nesting logic does not remove the
nested `customer`.  On a record with a nested customer object,
`CommonTransform.flattenRecord` returns a result that still has the
`customer` key and has no `customer_id` key (it flattens `user` and
`metadata` instead). -/
theorem c5_counterexample :
    (spreadFields (CommonTransform.flattenRecord
        (.obj (.cons "id" (.str "rec-1")
          (.cons "customer"
            (.obj (.cons "_id" (.str "c-1") (.cons "name" (.str "Ann") .nil)))
            .nil)))
        "2025-01-01T00:00:00.000Z")).hasKey "customer" = true ∧
    (spreadFields (CommonTransform.flattenRecord
        (.obj (.cons "id" (.str "rec-1")
          (.cons "customer"
            (.obj (.cons "_id" (.str "c-1") (.cons "name" (.str "Ann") .nil)))
            .nil)))
        "2025-01-01T00:00:00.000Z")).hasKey "customer_id" = false := by
  constructor
  · decide
  · decide

/-- C5 amended: the claimed behaviour is that of the example-based
generated un_nesting transform: for every input with a nested customer,
it returns a flattened record — the `customer` key deleted (the `.flat`
shape below has no `customer` field) and `customer_id` /
`customer_name` / `customer_organization_id` / `customer_version` copied
from the nested object.  The template path function
`CommonTransform.flattenRecord`, by contrast, leaves `customer` nested:
it flattens `user` and `metadata` only. -/
theorem c5_amended_un_nesting (ord : InputOrder)
    (nowIso nowFmt pid flatAt : String) (c : Customer)
    (hc : ord.customer = some c) :
    (∃ f, unNestingExample (some ord) nowIso nowFmt pid flatAt =
        some (.flat f) ∧
      f.customer_id = c._id ∧ f.customer_name = c.name ∧
      f.customer_organization_id = c.organization_id ∧
      f.customer_version = c.version) ∧
    (∀ (o : JsObj) (v : JsValue), o.lookup "customer" = some v →
      v ≠ .undefv →
      (spreadFields (CommonTransform.flattenRecord (.obj o) nowIso)).hasKey
        "customer" = true) := by
  constructor
  · have key : ∃ m, OrderTransformer.transform ord nowIso nowFmt pid = some m ∧
        m.customer = some c := by
      unfold OrderTransformer.transform OrderTransformer.transformOrderType1
        OrderTransformer.transformOrderType2
      by_cases ht : ord.order_type = "OrderType1"
      · rw [if_pos ht]
        exact ⟨_, rfl, hc⟩
      · rw [if_neg ht, hc]
        exact ⟨_, rfl, rfl⟩
    obtain ⟨m, hm, hmc⟩ := key
    unfold unNestingExample
    simp only [hm, Option.map_some', hmc]
    exact ⟨_, rfl, rfl, rfl, rfl, rfl⟩
  · intro o v hv hund
    unfold JsObj.hasKey
    rw [flattenRecord_keeps_key o nowIso "customer"
      (by decide) (by decide) (by decide) (by decide) (by decide)
      metadata_pre_ne_customer (by decide) (by decide) (by decide) v hv hund]
    rfl

/-- Witness for the amended C5 at a concrete order with a nested
customer. -/
theorem c5_amended_un_nesting_witness :
    ∃ f, unNestingExample
        (some ⟨some "express-1", none, "OrderType1", 5, "loc-1", "express",
          some ⟨"c-1", some "Ann", some "org-c", "0.1.4"⟩, some "org-top"⟩)
        "t" "f" "p" "fa" = some (.flat f) ∧
      f.customer_id = "c-1" ∧ f.customer_name = some "Ann" ∧
      f.customer_organization_id = some "org-c" ∧
      f.customer_version = "0.1.4" := by
  exact (c5_amended_un_nesting _ "t" "f" "p" "fa"
    ⟨"c-1", some "Ann", some "org-c", "0.1.4"⟩ rfl).1

/-- Witness for the amended C2: a record without a customer is dropped
and a record with a lower-case `test` in `_id` is dropped by the
example-based map_filter; a `test` identifier makes
`shouldKeepRecord` reject on the template path. -/
theorem c2_amended_map_filter_drops_witness :
    mapFilterExample
      (some ⟨some "a-1", none, "OrderType1", 1, "l", "express", none, none⟩)
      "t" "f" "p" = none ∧
    mapFilterExample
      (some ⟨some "my-test-1", none, "OrderType1", 1, "l", "express",
        some ⟨"c", some "Ann", none, "0.1.4"⟩, none⟩)
      "t" "f" "p" = none ∧
    CommonTransform.shouldKeepRecord
      (.obj (.cons "id" (.str "test-9") .nil)) = false := by
  refine ⟨?_, ?_, ?_⟩
  · exact c2_amended_map_filter_drops.1 _ "t" "f" "p" (by decide)
  · exact c2_amended_map_filter_drops.2.1 _ "t" "f" "p" "my-test-1" rfl
      (by decide) (by decide)
  · exact c2_amended_map_filter_drops.2.2 _ (by decide)

/-- C4 counterexample: the fail-soft policy does not return a structured
error object in every template transform class.  The catch branch of
`KeyTransform` returns the plain string `error-mykey` — not an object, with no
`error_message` field and no embedded original input. -/
theorem c4_counterexample :
    keyTransformOnError (.str "mykey") = .str "error-mykey" ∧
    ¬ IsStructuredErrorObject (keyTransformOnError (.str "mykey"))
        (.str "mykey") := by
  constructor
  · rfl
  · rintro ⟨rs, h, -, -⟩
    exact JsValue.noConfusion h

/-- C4 amended: no template transform class propagates the exception,
but only the value and schema variants return a structured error object
embedding the original input and an error message.
the catch branch of `ValueTransform.transform` spreads the original record
into the error object (every non-error-metadata field survives) and
that of `ValueSchemaTransform.transform` embeds it under `original_value`;
the catch branch of `KeyTransform.transform` instead returns the plain
fallback string `error-` followed by the key, and that of
`TopicTransform.transform` the plain sanitized string `transform-errors`. -/
theorem c4_amended_error_objects :
    (∀ (fs : JsObj) (msg : String) (stack : Option JsValue) (iso : String),
      IsStructuredErrorObject (valueTransformOnError (.obj fs) msg stack iso)
        (.obj fs)) ∧
    (∀ (v : JsValue) (msg iso : String),
      IsStructuredErrorObject (valueSchemaTransformOnError v msg iso) v) ∧
    (∀ k : JsValue, keyTransformOnError k = .str ("error-" ++ toStringJs k)) ∧
    topicTransformOnError = .str "transform-errors" := by
  refine ⟨?_, ?_, fun k => rfl, ?_⟩
  case refine_3 =>
    show JsValue.str (sanitizeTopicName "transform-errors") = .str "transform-errors"
    congr 1
  · intro fs msg stack iso
    refine ⟨_, rfl, ⟨msg, ?_⟩, Or.inr ⟨fs, rfl, ?_⟩⟩
    · show (objAssign
        (objAssign (spreadFields (.obj fs))
          (.cons "transform_error" (.bool true) .nil))
        (createErrorContext msg stack "valueTransform" (.obj fs) iso)).lookup
          "error_message" = some (.str msg)
      simp only [createErrorContext, objAssign, spreadFields]
      rw [lookup_setField_ne _ "record_type" _ "error_message" (by decide),
        lookup_setField_ne _ "record_id" _ "error_message" (by decide),
        lookup_setField_ne _ "error_stack" _ "error_message" (by decide),
        lookup_setField_ne _ "error_timestamp" _ "error_message" (by decide),
        lookup_setField_ne _ "error_operation" _ "error_message" (by decide),
        lookup_setField_self]
    · intro k v hkv hk
      simp only [errorMetaKeys, List.mem_cons, List.mem_singleton,
        List.not_mem_nil, or_false, not_or] at hk
      obtain ⟨n1, n2, n3, n4, n5, n6, n7⟩ := hk
      show (objAssign
        (objAssign (spreadFields (.obj fs))
          (.cons "transform_error" (.bool true) .nil))
        (createErrorContext msg stack "valueTransform" (.obj fs) iso)).lookup
          k = some v
      simp only [createErrorContext, objAssign, spreadFields]
      rw [lookup_setField_ne _ "record_type" _ k (Ne.symm n7),
        lookup_setField_ne _ "record_id" _ k (Ne.symm n6),
        lookup_setField_ne _ "error_stack" _ k (Ne.symm n5),
        lookup_setField_ne _ "error_timestamp" _ k (Ne.symm n4),
        lookup_setField_ne _ "error_operation" _ k (Ne.symm n3),
        lookup_setField_ne _ "error_message" _ k (Ne.symm n2),
        lookup_setField_ne _ "transform_error" _ k (Ne.symm n1)]
      exact hkv
  · intro v msg iso
    refine ⟨_, rfl, ⟨msg, ?_⟩, Or.inl ?_⟩
    · simp [valueSchemaTransformOnError, JsObj.lookup]
    · simp [valueSchemaTransformOnError, JsObj.lookup]

/-- Witness for the amended C4 at concrete inputs for every class. -/
theorem c4_amended_error_objects_witness :
    IsStructuredErrorObject
      (valueTransformOnError (.obj (.cons "a" (.num 1) .nil)) "boom" none "T")
      (.obj (.cons "a" (.num 1) .nil)) ∧
    IsStructuredErrorObject
      (valueSchemaTransformOnError (.str "orig") "boom" "T") (.str "orig") ∧
    keyTransformOnError (.str "k1") = .str ("error-" ++ toStringJs (.str "k1")) ∧
    topicTransformOnError = .str "transform-errors" :=
  ⟨c4_amended_error_objects.1 (.cons "a" (.num 1) .nil) "boom" none "T",
   c4_amended_error_objects.2.1 (.str "orig") "boom" "T",
   c4_amended_error_objects.2.2.1 (.str "k1"),
   c4_amended_error_objects.2.2.2⟩

theorem isNumOpt_eq_true {o : Option JsValue} (h : isNumOpt o = true) :
    ∃ x, o = some (.num x) := by
  cases o with
  | none => cases h
  | some v =>
    cases v with
    | num n => exact ⟨n, rfl⟩
    | undefv => cases h
    | nullv => cases h
    | bool b => cases h
    | str s => cases h
    | arr a => cases h
    | obj oo => cases h

/-- C9 counterexample: structural validity does not survive the
stringify/parse round trip.  A record whose `value` property is present
but `undefined` passes `validateRecordStructure` (the test `value in record` is
true), yet `JSON.stringify` omits that property, so the parsed-back
value fails the same validator. -/
theorem c9_counterexample :
    validateRecordStructure
      (.obj (.cons "value" .undefv
        (.cons "metadata"
          (.obj (.cons "offset" (.num 1)
            (.cons "partition" (.num 0)
              (.cons "timestamp" (.num 2) .nil)))) .nil))) = some true ∧
    validateRecordStructure (jsonCloneVal
      (.obj (.cons "value" .undefv
        (.cons "metadata"
          (.obj (.cons "offset" (.num 1)
            (.cons "partition" (.num 0)
              (.cons "timestamp" (.num 2) .nil)))) .nil)))) ≠ some true := by
  constructor
  · rfl
  · intro h
    cases h

/-- C9 amended: the round trip preserves structural validity for every
record whose `value` property is not the JavaScript `undefined` (the
only way stringify/parse can lose what the validator checks): if `r`
passes `validateRecordStructure` and `r.value` is not `undefined`, then
`JSON.parse(JSON.stringify(r))` passes it too. -/
theorem c9_amended_roundtrip_valid (fs : JsObj)
    (hval : validateRecordStructure (.obj fs) = some true)
    (hvnu : isUndefOpt (fs.lookup "value") = false) :
    validateRecordStructure (jsonCloneVal (.obj fs)) = some true := by
  cases hm : fs.lookup "metadata" with
  | none =>
    simp only [validateRecordStructure, hm] at hval
    simp at hval
  | some mv =>
    cases mv with
    | nullv =>
      simp only [validateRecordStructure, hm] at hval
      cases hval
    | obj m =>
      simp only [validateRecordStructure, hm] at hval
      have h4 : (fs.hasKey "value" && isNumOpt (m.lookup "offset") &&
          isNumOpt (m.lookup "partition") &&
          isNumOpt (m.lookup "timestamp")) = true := Option.some.inj hval
      have hx := (Bool.and_eq_true _ _).mp h4
      have hy := (Bool.and_eq_true _ _).mp hx.1
      have hz := (Bool.and_eq_true _ _).mp hy.1
      obtain ⟨w, hw⟩ := Option.isSome_iff_exists.mp hz.1
      have hwne : w ≠ .undefv := by
        intro h
        rw [h] at hw
        rw [hw] at hvnu
        cases hvnu
      obtain ⟨ox, hox⟩ := isNumOpt_eq_true hz.2
      obtain ⟨px, hpx⟩ := isNumOpt_eq_true hy.2
      obtain ⟨tx, htx⟩ := isNumOpt_eq_true hx.2
      have hm' : (jsonCloneObj fs).lookup "metadata" =
          some (.obj (jsonCloneObj m)) :=
        lookup_jsonCloneObj fs "metadata" (.obj m) hm (by intro h; cases h)
      have hkv' : (jsonCloneObj fs).hasKey "value" = true := by
        unfold JsObj.hasKey
        rw [lookup_jsonCloneObj fs "value" w hw hwne]
        rfl
      have ho' : (jsonCloneObj m).lookup "offset" = some (.num ox) :=
        lookup_jsonCloneObj m "offset" (.num ox) hox (by intro h; cases h)
      have hp' : (jsonCloneObj m).lookup "partition" = some (.num px) :=
        lookup_jsonCloneObj m "partition" (.num px) hpx (by intro h; cases h)
      have ht' : (jsonCloneObj m).lookup "timestamp" = some (.num tx) :=
        lookup_jsonCloneObj m "timestamp" (.num tx) htx (by intro h; cases h)
      show validateRecordStructure (.obj (jsonCloneObj fs)) = some true
      simp only [validateRecordStructure, hm', hkv', ho', hp', ht']
      simp [isNumOpt]
    | undefv =>
      simp only [validateRecordStructure, hm] at hval
      simp at hval
    | bool b =>
      simp only [validateRecordStructure, hm] at hval
      simp at hval
    | num n =>
      simp only [validateRecordStructure, hm] at hval
      simp at hval
    | str s =>
      simp only [validateRecordStructure, hm] at hval
      simp at hval
    | arr a =>
      simp only [validateRecordStructure, hm] at hval
      simp at hval

/-- Witness for the amended C9: a well-formed record round-trips. -/
theorem c9_amended_roundtrip_valid_witness :
    validateRecordStructure
      (.obj (.cons "value" (.str "payload")
        (.cons "metadata"
          (.obj (.cons "offset" (.num 3)
            (.cons "partition" (.num 0)
              (.cons "timestamp" (.num 99) .nil)))) .nil))) = some true ∧
    validateRecordStructure (jsonCloneVal
      (.obj (.cons "value" (.str "payload")
        (.cons "metadata"
          (.obj (.cons "offset" (.num 3)
            (.cons "partition" (.num 0)
              (.cons "timestamp" (.num 99) .nil)))) .nil)))) = some true := by
  constructor
  · rfl
  · exact c9_amended_roundtrip_valid _ rfl rfl

/-- C8: with the single flag `--map-filter` the generator emits exactly
`transforms/map-filter/valueTransform.js` and
`transforms/map-filter/keyTransform.js` — no other per-transform output
file — and each of the two files contains the literal substring
`_streamkap_transform`, whichever source structure (template-based or
example-based) is detected and whatever the bundled `mainCode` and
generation timestamp are. -/
theorem c8_map_filter_build (tmpl : Bool) (mainCode genTs : String) :
    ∃ c1 c2, buildJsWrites ["--map-filter"] tmpl mainCode genTs =
        some [("transforms/map-filter/valueTransform.js", c1),
              ("transforms/map-filter/keyTransform.js", c2)] ∧
      strContains c1 "_streamkap_transform" = true ∧
      strContains c2 "_streamkap_transform" = true := by
  have hb : buildJsWrites ["--map-filter"] tmpl mainCode genTs =
      some [("transforms/map-filter/valueTransform.js",
              emittedFileText
                { name := "mapFilterTransform", type := "map_filter",
                  language := "JAVASCRIPT",
                  description := "Map/Filter transform - modify and filter records",
                  functions := ["valueTransform", "keyTransform"],
                  folder := "map-filter" } "valueTransform" tmpl mainCode genTs),
            ("transforms/map-filter/keyTransform.js",
              emittedFileText
                { name := "mapFilterTransform", type := "map_filter",
                  language := "JAVASCRIPT",
                  description := "Map/Filter transform - modify and filter records",
                  functions := ["valueTransform", "keyTransform"],
                  folder := "map-filter" } "keyTransform" tmpl mainCode genTs)] := by
    rfl
  have hv : strContains (generateJavaScriptFunction
      { name := "mapFilterTransform", type := "map_filter",
        language := "JAVASCRIPT",
        description := "Map/Filter transform - modify and filter records",
        functions := ["valueTransform", "keyTransform"],
        folder := "map-filter" } "valueTransform" tmpl)
      "_streamkap_transform" = true := by
    cases tmpl
    · decide
    · decide
  have hk : strContains (generateJavaScriptFunction
      { name := "mapFilterTransform", type := "map_filter",
        language := "JAVASCRIPT",
        description := "Map/Filter transform - modify and filter records",
        functions := ["valueTransform", "keyTransform"],
        folder := "map-filter" } "keyTransform" tmpl)
      "_streamkap_transform" = true := by
    cases tmpl
    · decide
    · decide
  refine ⟨_, _, hb, ?_, ?_⟩
  · exact strContains_append_right _ _ _ hv
  · exact strContains_append_right _ _ _ hk
